import Mathlib

/-!
Shallow embedding of the meditation-api-backend core:
`GoogleApiCall.py` (retry decorator, model registry, generation client),
`main.py` (introduction orchestrator) and `session_planner.py`
(session-plan orchestrator), together with proofs of the specification
claims about them.

Conventions of the embedding:
* A fallible Python callable is modelled as a function into `Except String α`
  (the `String` carries the exception message).
* Repeated invocations of the same operation inside the retry loop are
  modelled by an oracle `op : Nat → Except String α` giving the outcome of
  the k-th invocation (0-based).
* `time.sleep(delay)` is modelled by recording the delay in a trace list.
* Python `str.strip()` is modelled by `pyStrip` (drop leading and trailing
  whitespace characters).
-/

/-- Outcome of running the retry wrapper from `retry_on_error`:
the wrapped call returned a value, the wrapper re-raised an exception, or
the `while` loop was never entered and the wrapper fell through to
`return None` (only possible for `max_retries = 0`). -/
inductive RetryOutcome (α : Type) where
  | ok : α → RetryOutcome α
  | raised : String → RetryOutcome α
  | fellThrough : RetryOutcome α
deriving DecidableEq, Repr

/-- Observable trace of one run of the wrapper produced by
`retry_on_error`: how many times the wrapped operation was invoked, the
list of sleep durations performed (in order), and the final outcome. -/
structure RetryRun (α : Type) where
  calls : Nat
  sleeps : List Nat
  outcome : RetryOutcome α
deriving DecidableEq, Repr

/-- The loop body of `retry_on_error.decorator.wrapper`
(`src/GoogleApiCall.py` lines 23-35).  The Python loop variable is
`retries` with guard `retries < max_retries`; we recurse structurally on
`remaining = max_retries - retries`.  One step: if no attempts remain the
loop exits and the wrapper returns `None`; otherwise invoke the operation;
on success return its value; on exception increment `retries`, and if
`retries == max_retries` re-raise, else sleep `delay` seconds and loop. -/
def retry_go (op : Nat → Except String α) (delay : Nat) :
    Nat → Nat → RetryRun α
  | _retries, 0 => ⟨0, [], RetryOutcome.fellThrough⟩
  | retries, 1 =>
      match op retries with
      | Except.ok a => ⟨1, [], RetryOutcome.ok a⟩
      | Except.error e => ⟨1, [], RetryOutcome.raised e⟩
  | retries, remaining + 2 =>
      match op retries with
      | Except.ok a => ⟨1, [], RetryOutcome.ok a⟩
      | Except.error _ =>
          let rest := retry_go op delay (retries + 1) (remaining + 1)
          ⟨rest.calls + 1, delay :: rest.sleeps, rest.outcome⟩

/-- The decorator `retry_on_error(max_retries, delay)` applied to an
operation (`src/GoogleApiCall.py` lines 19-37): run the `while` loop
starting at `retries = 0`, i.e. with `max_retries` attempts remaining.
The source defaults are `max_retries=3, delay=5`. -/
def retry_on_error (max_retries delay : Nat) (op : Nat → Except String α) :
    RetryRun α :=
  retry_go op delay 0 max_retries

theorem retry_go_always_fails {α : Type} (op : Nat → Except String α)
    (d : Nat) (hop : ∀ k, ∃ e, op k = Except.error e) :
    ∀ remaining retries, 1 ≤ remaining →
      (retry_go op d retries remaining).calls = remaining ∧
      (retry_go op d retries remaining).sleeps =
        List.replicate (remaining - 1) d ∧
      ∀ e, op (retries + remaining - 1) = Except.error e →
        (retry_go op d retries remaining).outcome = RetryOutcome.raised e := by
  intro remaining
  induction remaining with
  | zero => intro retries h; omega
  | succ j ih =>
      intro retries _
      match j with
      | 0 =>
          obtain ⟨e0, he0⟩ := hop retries
          refine ⟨?_, ?_, ?_⟩
          · simp [retry_go, he0]
          · simp [retry_go, he0]
          · intro e he
            have : retries + 1 - 1 = retries := by omega
            rw [this] at he
            rw [he0] at he
            cases he
            simp [retry_go, he0]
      | j' + 1 =>
          obtain ⟨e0, he0⟩ := hop retries
          obtain ⟨ihc, ihs, iho⟩ := ih (retries + 1) (by omega)
          refine ⟨?_, ?_, ?_⟩
          · simp [retry_go, he0, ihc]
          · simp only [retry_go, he0, ihs]
            have h1 : j' + 1 + 1 - 1 = j' + 1 := by omega
            have h2 : j' + 1 - 1 = j' := by omega
            rw [h1, h2]
            rfl
          · intro e he
            have harg : retries + 1 + (j' + 1) - 1 = retries + (j' + 1 + 1) - 1 := by
              omega
            simp only [retry_go, he0]
            exact iho e (by rw [harg]; exact he)

/-- C1: for every `max_retries = n ≥ 1` and every operation that raises on
every invocation, the wrapper produced by `retry_on_error(n, d)` invokes
the operation exactly `n` times, sleeps exactly `n - 1` times with delay
`d` each (none after the final failed attempt), and re-raises the failure
of the last (i.e. `(n-1)`-th, 0-based) invocation. -/
theorem retry_on_error_always_fails (op : Nat → Except String String)
    (n d : Nat) (hn : 1 ≤ n) (hop : ∀ k, ∃ e, op k = Except.error e) :
    (retry_on_error n d op).calls = n ∧
    (retry_on_error n d op).sleeps = List.replicate (n - 1) d ∧
    ∀ e, op (n - 1) = Except.error e →
      (retry_on_error n d op).outcome = RetryOutcome.raised e := by
  obtain ⟨hc, hs, ho⟩ := retry_go_always_fails op d hop n 0 hn
  refine ⟨hc, hs, fun e he => ho e ?_⟩
  have : 0 + n - 1 = n - 1 := by omega
  rw [this]
  exact he

theorem retry_on_error_always_fails_witness :
    (retry_on_error 3 5 (fun _ => (Except.error "boom" : Except String String))).calls = 3 ∧
    (retry_on_error 3 5 (fun _ => (Except.error "boom" : Except String String))).sleeps = [5, 5] ∧
    (retry_on_error 3 5 (fun _ => (Except.error "boom" : Except String String))).outcome =
      RetryOutcome.raised "boom" := by
  obtain ⟨hc, hs, ho⟩ :=
    retry_on_error_always_fails (fun _ => Except.error "boom") 3 5 (by omega)
      (fun k => ⟨"boom", rfl⟩)
  exact ⟨hc, by rw [hs]; rfl, ho "boom" rfl⟩

/-- C2 counterexample: with `max_retries = 0` the `while retries < 0` loop
is never entered, so the wrapped operation is invoked zero times — not "at
least once" — and the wrapper silently returns `None`. -/
theorem retry_on_error_zero_never_invokes :
    ¬ (1 ≤ (retry_on_error 0 5
        (fun _ => (Except.error "boom" : Except String String))).calls) ∧
    (retry_on_error 0 5
        (fun _ => (Except.error "boom" : Except String String))).outcome =
      RetryOutcome.fellThrough := by
  exact ⟨by decide, rfl⟩

/-- C2 (amended): for `max_retries = 1` the wrapper invokes the wrapped
operation exactly once (hence at least once), but for `max_retries = 0` it
invokes the operation zero times and falls through, returning `None`
without raising. -/
theorem retry_on_error_zero_one_attempts (op : Nat → Except String String)
    (d : Nat) :
    (retry_on_error 1 d op).calls = 1 ∧
    (retry_on_error 0 d op).calls = 0 ∧
    (retry_on_error 0 d op).outcome = RetryOutcome.fellThrough := by
  refine ⟨?_, rfl, rfl⟩
  cases h : op 0 with
  | ok a => simp [retry_on_error, retry_go, h]
  | error e => simp [retry_on_error, retry_go, h]

/-- One generation configuration from `MODEL_CONFIGS`
(`src/GoogleApiCall.py` lines 44-63).  The float fields are modelled as
rationals; they are only stored and compared, never computed with. -/
structure ModelConfig where
  temperature : ℚ
  top_p : ℚ
  top_k : ℕ
  max_output_tokens : ℕ
deriving DecidableEq, Repr

/-- Python `dict` lookup (`d.get(k)` / `d[k]`): the value stored under the
first (and, under `dict_set`, only) occurrence of the key, or `none`. -/
def dict_get (d : List (String × ModelConfig)) (k : String) :
    Option ModelConfig :=
  match d with
  | [] => none
  | (k', v) :: rest => if k' = k then some v else dict_get rest k

/-- Python `dict` assignment `d[k] = v`: overwrite the entry for `k` in
place if present, otherwise append a new entry. -/
def dict_set (d : List (String × ModelConfig)) (k : String) (v : ModelConfig) :
    List (String × ModelConfig) :=
  match d with
  | [] => [(k, v)]
  | (k', v') :: rest =>
      if k' = k then (k, v) :: rest else (k', v') :: dict_set rest k v

/-- The constant `GoogleApiCall.DEFAULT_MODEL`
(`src/GoogleApiCall.py` line 43). -/
def DEFAULT_MODEL : String := "gemini-2.5-flash"

/-- The built-in `GoogleApiCall.MODEL_CONFIGS` registry
(`src/GoogleApiCall.py` lines 44-63), in source order. -/
def MODEL_CONFIGS : List (String × ModelConfig) :=
  [("gemini-2.5-flash",
    { temperature := 0.5, top_p := 0.95, top_k := 40, max_output_tokens := 8000 }),
   ("gemini-1.0-pro-latest",
    { temperature := 0.7, top_p := 0.95, top_k := 40, max_output_tokens := 8000 }),
   ("gemini-2.5-pro",
    { temperature := 0.9, top_p := 0.95, top_k := 40, max_output_tokens := 8000 })]

/-- The classmethod `GoogleApiCall.add_model_config(model_name, config)`
(`src/GoogleApiCall.py` lines 129-133): `MODEL_CONFIGS[model_name] = config`. -/
def add_model_config (d : List (String × ModelConfig)) (model_name : String)
    (config : ModelConfig) : List (String × ModelConfig) :=
  dict_set d model_name config

/-- The config lookup in `_initialize_genai` (`src/GoogleApiCall.py` lines
84-87): `MODEL_CONFIGS.get(self.model_name, MODEL_CONFIGS[DEFAULT_MODEL])`.
Python evaluates the default argument `MODEL_CONFIGS[DEFAULT_MODEL]` first;
a `KeyError` there (default entry missing) is modelled as `none`. -/
def resolve (d : List (String × ModelConfig)) (name : String) :
    Option ModelConfig :=
  match dict_get d DEFAULT_MODEL with
  | none => none
  | some dflt => some ((dict_get d name).getD dflt)

/-- The registry states reachable from the built-in `MODEL_CONFIGS` by any
sequence of `add_model_config` registrations. -/
inductive ReachableRegistry : List (String × ModelConfig) → Prop where
  | init : ReachableRegistry MODEL_CONFIGS
  | register (d : List (String × ModelConfig)) (name : String)
      (cfg : ModelConfig) : ReachableRegistry d →
      ReachableRegistry (add_model_config d name cfg)

theorem dict_get_set_self (d : List (String × ModelConfig)) (k : String)
    (v : ModelConfig) : dict_get (dict_set d k v) k = some v := by
  induction d with
  | nil => simp [dict_set, dict_get]
  | cons hd tl ih =>
      obtain ⟨k', v'⟩ := hd
      by_cases h : k' = k
      · simp [dict_set, dict_get, h]
      · simp [dict_set, dict_get, h, ih]

theorem dict_get_set_preserve (d : List (String × ModelConfig))
    (k k' : String) (v : ModelConfig) (h : (dict_get d k').isSome) :
    (dict_get (dict_set d k v) k').isSome := by
  induction d with
  | nil => simp [dict_get] at h
  | cons hd tl ih =>
      obtain ⟨k0, v0⟩ := hd
      by_cases hk : k0 = k
      · subst hk
        by_cases hk' : k0 = k'
        · simp [dict_set, dict_get, hk']
        · simp [dict_get, hk'] at h
          simp [dict_set, dict_get, hk', h]
      · by_cases hk' : k0 = k'
        · subst hk'
          simp [dict_set, dict_get, hk]
        · simp [dict_get, hk'] at h
          simp [dict_set, dict_get, hk, hk', ih h]

theorem reachable_default_present (d : List (String × ModelConfig))
    (h : ReachableRegistry d) : (dict_get d DEFAULT_MODEL).isSome := by
  induction h with
  | init => decide
  | register d' name cfg _ ih => exact dict_get_set_preserve d' name DEFAULT_MODEL cfg ih

/-- C6: model-config resolution never fails on a reachable registry: for a
name not present it returns exactly the entry of the default model (`DEFAULT_MODEL =
"gemini-2.5-flash"`) entry and is `some`, and for any name just registered
via `add_model_config(name, cfg)` it returns exactly `cfg`. -/
theorem resolve_never_fails (d : List (String × ModelConfig))
    (name : String) (cfg : ModelConfig) (hd : ReachableRegistry d) :
    (dict_get d name = none →
      resolve d name = dict_get d DEFAULT_MODEL ∧ (resolve d name).isSome) ∧
    resolve (add_model_config d name cfg) name = some cfg := by
  have hdef := reachable_default_present d hd
  constructor
  · intro habs
    obtain ⟨c, hc⟩ := Option.isSome_iff_exists.mp hdef
    simp [resolve, hc, habs]
  · have hdef' : (dict_get (add_model_config d name cfg) DEFAULT_MODEL).isSome :=
      reachable_default_present _ (ReachableRegistry.register d name cfg hd)
    obtain ⟨c, hc⟩ := Option.isSome_iff_exists.mp hdef'
    simp only [add_model_config] at hc
    simp [resolve, add_model_config, hc, dict_get_set_self]

/-- A sample configuration used only to instantiate witnesses. -/
def sample_config : ModelConfig :=
  { temperature := 1, top_p := 9/10, top_k := 50, max_output_tokens := 1000 }

theorem resolve_never_fails_witness :
    (dict_get MODEL_CONFIGS "nope" = none →
      resolve MODEL_CONFIGS "nope" = dict_get MODEL_CONFIGS DEFAULT_MODEL ∧
      (resolve MODEL_CONFIGS "nope").isSome) ∧
    resolve (add_model_config MODEL_CONFIGS "nope" sample_config) "nope" =
      some sample_config :=
  resolve_never_fails MODEL_CONFIGS "nope" sample_config ReachableRegistry.init

/-- C8: the registry starts with exactly three built-in entries, the
default `"gemini-2.5-flash"` among them; registration never removes an
entry (every present key stays present), so on every reachable registry
the default-fallback lookup is defined. -/
theorem model_registry_invariant :
    MODEL_CONFIGS.length = 3 ∧
    dict_get MODEL_CONFIGS DEFAULT_MODEL =
      some { temperature := 0.5, top_p := 0.95, top_k := 40,
             max_output_tokens := 8000 } ∧
    (∀ d name cfg k, (dict_get d k).isSome →
      (dict_get (add_model_config d name cfg) k).isSome) ∧
    (∀ d, ReachableRegistry d → (dict_get d DEFAULT_MODEL).isSome) := by
  refine ⟨rfl, rfl, ?_, reachable_default_present⟩
  intro d name cfg k h
  exact dict_get_set_preserve d name k cfg h

theorem model_registry_invariant_witness :
    (dict_get (add_model_config MODEL_CONFIGS "custom-model" sample_config)
      DEFAULT_MODEL).isSome :=
  model_registry_invariant.2.2.2 _
    (ReachableRegistry.register MODEL_CONFIGS "custom-model" sample_config
      ReachableRegistry.init)

/-- Python `str.strip()`: drop leading and trailing whitespace characters
(`response.text.strip()`, `src/GoogleApiCall.py` line 112). -/
def pyStrip (s : String) : String :=
  ⟨List.rdropWhile Char.isWhitespace (s.data.dropWhile Char.isWhitespace)⟩

/-- Python truthiness of an optional string: `None` and `""` are falsy
(`if not api_key`, `src/GoogleApiCall.py` line 77). -/
def pyTruthy : Option String → Bool
  | none => false
  | some s => !(s == "")

theorem head_not_ws_of_dropWhile_eq_self (a : Char) (l : List Char)
    (h : List.dropWhile Char.isWhitespace (a :: l) = a :: l) :
    Char.isWhitespace a = false := by
  cases hpa : Char.isWhitespace a with
  | false => rfl
  | true =>
      exfalso
      simp only [List.dropWhile_cons, hpa, if_true] at h
      have hlen := List.Sublist.length_le
        (List.dropWhile_sublist Char.isWhitespace (l := l))
      rw [h] at hlen
      simp only [List.length_cons] at hlen
      omega

theorem strip_list_idem (l : List Char) :
    List.rdropWhile Char.isWhitespace
      (List.dropWhile Char.isWhitespace
        (List.rdropWhile Char.isWhitespace
          (List.dropWhile Char.isWhitespace l))) =
    List.rdropWhile Char.isWhitespace (List.dropWhile Char.isWhitespace l) := by
  set y := List.dropWhile Char.isWhitespace l with hy
  have hyy : List.dropWhile Char.isWhitespace y = y := by
    rw [hy]
    exact List.dropWhile_idempotent Char.isWhitespace l
  have hpre : List.rdropWhile Char.isWhitespace y <+: y :=
    List.rdropWhile_prefix Char.isWhitespace y
  obtain ⟨t, ht⟩ := hpre
  have hx : List.dropWhile Char.isWhitespace
      (List.rdropWhile Char.isWhitespace y) =
      List.rdropWhile Char.isWhitespace y := by
    cases hxc : List.rdropWhile Char.isWhitespace y with
    | nil => rfl
    | cons a x' =>
        have hcons : a :: (x' ++ t) = y := by
          rw [← List.cons_append, ← hxc]
          exact ht
        have hy2 : List.dropWhile Char.isWhitespace (a :: (x' ++ t)) =
            a :: (x' ++ t) := by
          rw [hcons]
          exact hyy
        have ha := head_not_ws_of_dropWhile_eq_self a (x' ++ t) hy2
        rw [List.dropWhile_cons, if_neg (by simp [ha])]
  rw [hx]
  exact List.rdropWhile_idempotent Char.isWhitespace y

theorem pyStrip_idem (s : String) : pyStrip (pyStrip s) = pyStrip s :=
  congrArg String.mk (strip_list_idem s.data)

/-- The process environment as seen through `os.getenv`. -/
structure ProcessEnv where
  google_api_key : Option String
deriving DecidableEq, Repr

/-- The remote model handle created by `genai.GenerativeModel`
(`src/GoogleApiCall.py` lines 90-93): the bound model name and the
generation configuration resolved from the registry. -/
structure GenaiModel where
  model_name : String
  generation_config : ModelConfig
deriving DecidableEq, Repr

/-- The method `GoogleApiCall._initialize_genai` (`src/GoogleApiCall.py`
lines 71-99): read `GOOGLE_API_KEY` from the environment and raise `ValueError`
if it is unset (or empty, by Python truthiness); otherwise resolve the
generation config from the registry (a `KeyError` while evaluating
`MODEL_CONFIGS[DEFAULT_MODEL]` is modelled as an error) and build the
model handle. -/
def initialize_genai (env : ProcessEnv)
    (registry : List (String × ModelConfig)) (model_name : String) :
    Except String GenaiModel :=
  if pyTruthy env.google_api_key = false then
    Except.error "GOOGLE_API_KEY environment variable not set"
  else
    match resolve registry model_name with
    | none => Except.error "KeyError"
    | some cfg =>
        Except.ok { model_name := model_name, generation_config := cfg }

/-- Python `model_name or self.DEFAULT_MODEL` (`src/GoogleApiCall.py`
line 67): `None` and the empty string fall back to the default. -/
def resolved_model_name (model_name : Option String) : String :=
  match model_name with
  | none => DEFAULT_MODEL
  | some s => if s = "" then DEFAULT_MODEL else s

/-- The client state after a successful `GoogleApiCall.__init__`:
the selected model name and the (optional) remote handle. -/
structure GoogleApiCallState where
  model_name : String
  model : Option GenaiModel
deriving DecidableEq, Repr

/-- The constructor `GoogleApiCall.__init__` (`src/GoogleApiCall.py` lines 65-69):
pick the model name, set `self.model = None`, then eagerly call
`_initialize_genai`; an error there propagates out of construction. -/
def GoogleApiCall_init (env : ProcessEnv)
    (registry : List (String × ModelConfig)) (model_name : Option String) :
    Except String GoogleApiCallState :=
  let name := resolved_model_name model_name
  match initialize_genai env registry name with
  | Except.error e => Except.error e
  | Except.ok m => Except.ok { model_name := name, model := some m }

/-- C7: constructing the client with the API-key credential absent from
the environment raises immediately at construction with the
configuration-error message (no retry wrapper is involved in
construction), and any successful construction has already established the
remote model handle (`st.model` is set) before any generate call. -/
theorem init_requires_api_key (env : ProcessEnv) (mn : Option String) :
    (env.google_api_key = none →
      GoogleApiCall_init env MODEL_CONFIGS mn =
        Except.error "GOOGLE_API_KEY environment variable not set") ∧
    (∀ st, GoogleApiCall_init env MODEL_CONFIGS mn = Except.ok st →
      st.model.isSome) := by
  constructor
  · intro h
    simp [GoogleApiCall_init, initialize_genai, pyTruthy, h]
  · intro st hst
    simp only [GoogleApiCall_init] at hst
    cases hinit : initialize_genai env MODEL_CONFIGS (resolved_model_name mn) with
    | error e =>
        simp only [hinit] at hst
        cases hst
    | ok m =>
        simp only [hinit] at hst
        cases hst
        rfl

/-- The client state produced by a successful construction against the
built-in registry with the default model; used to instantiate witnesses. -/
def sample_client_state : GoogleApiCallState :=
  { model_name := DEFAULT_MODEL,
    model := some { model_name := DEFAULT_MODEL,
                    generation_config := { temperature := 0.5, top_p := 0.95,
                                           top_k := 40,
                                           max_output_tokens := 8000 } } }

theorem init_requires_api_key_witness :
    GoogleApiCall_init ⟨none⟩ MODEL_CONFIGS none =
      Except.error "GOOGLE_API_KEY environment variable not set" ∧
    sample_client_state.model.isSome :=
  ⟨(init_requires_api_key ⟨none⟩ none).1 rfl,
   (init_requires_api_key ⟨some "key"⟩ none).2 sample_client_state rfl⟩

/-- One attempt of the body of `generate_content`
(`src/GoogleApiCall.py` lines 104-122): the remote call
`self.model.generate_content(message)` either raises (any exception of
the body, including one out of the lazy `_initialize_genai` re-init on
lines 105-106, is folded into the error outcome of the attempt) or returns
text; the text is stripped, and if the stripped text is empty a
`ValueError("Generated content is empty")` is raised; otherwise the
stripped text is returned. -/
def generate_content_once (remote : Except String String) :
    Except String String :=
  match remote with
  | Except.error e => Except.error e
  | Except.ok t =>
      let generated_text := pyStrip t
      if generated_text = "" then Except.error "Generated content is empty"
      else Except.ok generated_text

/-- The method `GoogleApiCall.generate_content` (`src/GoogleApiCall.py`
lines 101-122): the body above wrapped by `@retry_on_error(max_retries=3,
delay=5)`; `remote k` is the outcome of the remote call on the k-th
attempt. -/
def generate_content (remote : Nat → Except String String) :
    RetryRun String :=
  retry_on_error 3 5 (fun k => generate_content_once (remote k))

theorem retry_go_outcome_ok {α : Type} (op : Nat → Except String α)
    (d : Nat) : ∀ remaining retries s,
    (retry_go op d retries remaining).outcome = RetryOutcome.ok s →
    ∃ k, op k = Except.ok s := by
  intro remaining
  induction remaining with
  | zero => intro retries s h; cases h
  | succ j ih =>
      intro retries s h
      match j with
      | 0 =>
          cases h0 : op retries with
          | ok a =>
              simp only [retry_go, h0] at h
              cases h
              exact ⟨retries, h0⟩
          | error e => simp [retry_go, h0] at h
      | j' + 1 =>
          cases h0 : op retries with
          | ok a =>
              simp only [retry_go, h0] at h
              cases h
              exact ⟨retries, h0⟩
          | error e =>
              simp only [retry_go, h0] at h
              exact ih (retries + 1) s h

theorem retry_go_ne_fellThrough {α : Type} (op : Nat → Except String α)
    (d : Nat) : ∀ remaining retries, 1 ≤ remaining →
    (retry_go op d retries remaining).outcome ≠ RetryOutcome.fellThrough := by
  intro remaining
  induction remaining with
  | zero => intro retries h; omega
  | succ j ih =>
      intro retries _
      match j with
      | 0 =>
          cases h0 : op retries with
          | ok a => simp [retry_go, h0]
          | error e => simp [retry_go, h0]
      | j' + 1 =>
          cases h0 : op retries with
          | ok a => simp [retry_go, h0]
          | error e =>
              simp only [retry_go, h0]
              exact ih (retries + 1) (by omega)

/-- C3: empty or whitespace-only remote text is turned into a raised
failure by the body of `generate_content` exactly like a thrown remote
error, and that body runs under the same `retry_on_error(3, 5)` wrapper;
the wrapped call either returns non-empty text that is its own strip
(trimmed) or raises — with `max_retries = 3` it never falls through and
never swallows an error. -/
theorem generate_content_validates (remote : Nat → Except String String) :
    (∀ t, pyStrip t = "" →
      generate_content_once (Except.ok t) =
        Except.error "Generated content is empty") ∧
    generate_content remote =
      retry_on_error 3 5 (fun k => generate_content_once (remote k)) ∧
    (∀ s, (generate_content remote).outcome = RetryOutcome.ok s →
      s ≠ "" ∧ pyStrip s = s) ∧
    (generate_content remote).outcome ≠ RetryOutcome.fellThrough := by
  refine ⟨?_, rfl, ?_, ?_⟩
  · intro t ht
    simp [generate_content_once, ht]
  · intro s hs
    obtain ⟨k, hk⟩ := retry_go_outcome_ok
      (fun k => generate_content_once (remote k)) 5 3 0 s hs
    cases hr : remote k with
    | error e => simp [generate_content_once, hr] at hk
    | ok t =>
        simp only [generate_content_once, hr] at hk
        by_cases hempty : pyStrip t = ""
        · simp [hempty] at hk
        · simp only [hempty, if_false] at hk
          cases hk
          exact ⟨hempty, pyStrip_idem t⟩
  · exact retry_go_ne_fellThrough
      (fun k => generate_content_once (remote k)) 5 3 0 (by omega)

theorem generate_content_validates_witness :
    generate_content_once (Except.ok "   ") =
      Except.error "Generated content is empty" ∧
    (generate_content (fun _ => Except.ok " hello ")).outcome ≠
      RetryOutcome.fellThrough := by
  refine ⟨(generate_content_validates (fun _ => Except.ok " hello ")).1 "   " ?_,
    (generate_content_validates (fun _ => Except.ok " hello ")).2.2.2⟩
  decide

/-- Occurrence of `pat` in `s` as a contiguous substring. -/
def strContains (s pat : String) : Prop := ∃ a b : String, s = a ++ pat ++ b

theorem strContains_append_left (x s pat : String)
    (h : strContains s pat) : strContains (x ++ s) pat := by
  obtain ⟨a, b, hab⟩ := h
  exact ⟨x ++ a, b, by rw [hab]; simp [String.append_assoc]⟩

/-- Shared consequence of a permanently failing remote call: under
`retry_on_error(3, 5)` the wrapped `generate_content` ends by re-raising. -/
theorem generate_content_fails_of_always_error
    (remote : Nat → Except String String)
    (h : ∀ k, ∃ e, remote k = Except.error e) :
    ∃ e, (generate_content remote).outcome = RetryOutcome.raised e := by
  have hop : ∀ k, ∃ e, generate_content_once (remote k) = Except.error e := by
    intro k
    obtain ⟨e, he⟩ := h k
    exact ⟨e, by simp [generate_content_once, he]⟩
  obtain ⟨_, _, ho⟩ := retry_go_always_fails
    (fun k => generate_content_once (remote k)) 5 hop 3 0 (by omega)
  obtain ⟨e, he⟩ := hop 2
  exact ⟨e, ho e he⟩

/-- The Pydantic model `CheckinData` (`src/main.py` lines 38-42): all four
fields are `Optional`; an explicit JSON `null` yields `none` (Python `None`). -/
structure CheckinData where
  agitation : Option Int
  energy : Option String
  emotions : Option (List String)
  preference : Option String
deriving DecidableEq, Repr

/-- The Pydantic model `IntroductionRequest` (`src/main.py` lines 44-48). -/
structure IntroductionRequest where
  meditation_type : String
  duration_minutes : Int
  user_profile : Option String
  checkin_data : Option CheckinData
deriving DecidableEq, Repr

/-- The context dict built by `_build_introduction_context`
(`src/main.py` lines 137-153): the three base keys are always present and
the four check-in keys are present exactly when `checkin_data` was given,
so they are modelled as one optional component. -/
structure IntroContext where
  meditation_type : String
  duration_minutes : Int
  user_profile : String
  checkin : Option CheckinData
deriving DecidableEq, Repr

/-- The expression `request.user_profile or "New meditator"`
(`src/main.py` line 142): Python `or` falls back when the value is `None`
or the empty string. -/
def user_profile_or_default : Option String → String
  | none => "New meditator"
  | some s => if s = "" then "New meditator" else s

/-- The helper `_build_introduction_context` (`src/main.py` lines 137-153). -/
def build_introduction_context (request : IntroductionRequest) :
    IntroContext :=
  { meditation_type := request.meditation_type,
    duration_minutes := request.duration_minutes,
    user_profile := user_profile_or_default request.user_profile,
    checkin := request.checkin_data }

/-- Python `repr` of a string (single-quoted, as inside `str(list)`). -/
def pyReprStr (s : String) : String := "\x27" ++ s ++ "\x27"

/-- Join strings with a separator (Python `", ".join`). -/
def joinSep (sep : String) : List String → String
  | [] => ""
  | [x] => x
  | x :: y :: rest => x ++ sep ++ joinSep sep (y :: rest)

/-- Python `str` of a list of strings, each item single-quoted. -/
def pyReprStrList (l : List String) : String :=
  "[" ++ joinSep ", " (l.map pyReprStr) ++ "]"

/-- Python `str` of a list of ints, e.g. `[1, 2, 3]`. -/
def pyReprIntList (l : List Int) : String :=
  "[" ++ joinSep ", " (l.map toString) ++ "]"

/-- The interpolation of context.get for the agitation level with default
unknown (`src/main.py` line 164): `"unknown"` when the key is absent (no
check-in data), `str` of the stored value when present (`None` prints as
`"None"`). -/
def agitation_display (ctx : IntroContext) : String :=
  match ctx.checkin with
  | none => "unknown"
  | some c =>
      match c.agitation with
      | none => "None"
      | some n => toString n

/-- The interpolation of context.get for the energy level with default
normal (`src/main.py` line 165). -/
def energy_display (ctx : IntroContext) : String :=
  match ctx.checkin with
  | none => "normal"
  | some c =>
      match c.energy with
      | none => "None"
      | some s => s

/-- The interpolation of context.get for the current emotions with the
empty list as default (`src/main.py` line 166). -/
def emotions_display (ctx : IntroContext) : String :=
  match ctx.checkin with
  | none => "[]"
  | some c =>
      match c.emotions with
      | none => "None"
      | some l => pyReprStrList l

/-- The interpolation of context.get for the meditation preference with
default auto (`src/main.py` line 167). -/
def preference_display (ctx : IntroContext) : String :=
  match ctx.checkin with
  | none => "auto"
  | some c =>
      match c.preference with
      | none => "None"
      | some s => s

/-- Fixed segments of the f-string template of
`_generate_introduction_text` (`src/main.py` lines 158-184), split at the
interpolation holes. -/
def INTRO_SEG1 : String :=
  "\nYou are a wise, experienced meditation teacher starting a session with a student.\n\nSTUDENT CONTEXT:\n- Profile: "

def INTRO_SEG2 : String := "\n- Today\x27s practice: "

def INTRO_SEG3 : String := " for "

def INTRO_SEG4 : String := " minutes\n- Current agitation level: "

def INTRO_SEG5 : String := "/5\n- Energy level: "

def INTRO_SEG6 : String := "\n- Present emotions: "

def INTRO_SEG7 : String := "\n- Preference: "

def INTRO_SEG8 : String :=
  "\n\nINSTRUCTIONS:\nCreate a warm, personalized introduction (30-45 words) that:\n1. Acknowledges their current state with compassion\n2. Sets realistic expectations for the session\n3. Gives initial settling guidance\n4. Feels personal and encouraging\n\nBe natural and authentic, not overly spiritual. Speak directly to them.\n\nExamples of good tone:\n- \"I can sense you\x27re carrying some stress today. That\x27s exactly why we\x27re here...\"\n- \"Your mind seems quite active right now, which is perfectly normal...\"\n- \"I notice you\x27re feeling a bit low energy - let\x27s work with that...\"\n\nGenerate the introduction:\n"

/-- The prompt assembled by `_generate_introduction_text`
(`src/main.py` lines 158-184). -/
def introduction_prompt (ctx : IntroContext) : String :=
  INTRO_SEG1 ++ ctx.user_profile ++ INTRO_SEG2 ++ ctx.meditation_type ++
  INTRO_SEG3 ++ toString ctx.duration_minutes ++ INTRO_SEG4 ++
  agitation_display ctx ++ INTRO_SEG5 ++ energy_display ctx ++ INTRO_SEG6 ++
  emotions_display ctx ++ INTRO_SEG7 ++ preference_display ctx ++ INTRO_SEG8

/-- The fallback sentence of `_generate_introduction_text`
(`src/main.py` line 192). -/
def fallback_introduction (ctx : IntroContext) : String :=
  "Welcome to your " ++ toString ctx.duration_minutes ++ "-minute " ++
  ctx.meditation_type ++
  " practice. Take a moment to settle in and let\x27s begin this journey together."

/-- The helper `_generate_introduction_text` (`src/main.py` lines 155-192): build the
prompt, call `google_ai.generate_content(prompt)` (retry-wrapped; `remote`
gives the remote outcome per prompt and attempt) and return the stripped
text; any exception out of the `try` block — including the
`AttributeError` from `.strip()` on the `None` a fell-through wrapper
would return — yields the fallback sentence. -/
def generate_introduction_text (remote : String → Nat → Except String String)
    (ctx : IntroContext) : String :=
  let prompt := introduction_prompt ctx
  match (generate_content (remote prompt)).outcome with
  | RetryOutcome.ok introduction => pyStrip introduction
  | RetryOutcome.raised _ => fallback_introduction ctx
  | RetryOutcome.fellThrough => fallback_introduction ctx

/-- C4: with remote generation permanently failing, the introduction
orchestrator propagates nothing: it returns the deterministic fallback
sentence built from the duration and practice type, and in particular for
`duration_minutes = 20` and `meditation_type = "body_scan"` that returned
sentence contains `"20"` and `"body_scan"` as literal substrings. -/
theorem generate_introduction_never_fails
    (remote : String → Nat → Except String String) (ctx : IntroContext)
    (hfail : ∀ prompt k, ∃ e, remote prompt k = Except.error e) :
    generate_introduction_text remote ctx = fallback_introduction ctx ∧
    (ctx.duration_minutes = 20 → ctx.meditation_type = "body_scan" →
      strContains (generate_introduction_text remote ctx) "20" ∧
      strContains (generate_introduction_text remote ctx) "body_scan") := by
  obtain ⟨e, he⟩ := generate_content_fails_of_always_error
    (remote (introduction_prompt ctx)) (hfail (introduction_prompt ctx))
  have h1 : generate_introduction_text remote ctx =
      fallback_introduction ctx := by
    simp only [generate_introduction_text]
    rw [he]
  refine ⟨h1, fun h20 hbs => ?_⟩
  rw [h1]
  constructor
  · refine ⟨"Welcome to your ",
      "-minute body_scan practice. Take a moment to settle in and let\x27s begin this journey together.", ?_⟩
    simp only [fallback_introduction, h20, hbs]
    rfl
  · refine ⟨"Welcome to your 20-minute ",
      " practice. Take a moment to settle in and let\x27s begin this journey together.", ?_⟩
    simp only [fallback_introduction, h20, hbs]
    rfl

/-- A permanently failing remote call, for witnesses. -/
def failing_remote : String → Nat → Except String String :=
  fun _ _ => Except.error "service unavailable"

/-- A 20-minute body-scan context, for witnesses. -/
def sample_intro_ctx : IntroContext :=
  { meditation_type := "body_scan", duration_minutes := 20,
    user_profile := "New meditator", checkin := none }

theorem generate_introduction_never_fails_witness :
    generate_introduction_text failing_remote sample_intro_ctx =
      fallback_introduction sample_intro_ctx ∧
    strContains (generate_introduction_text failing_remote sample_intro_ctx)
      "20" ∧
    strContains (generate_introduction_text failing_remote sample_intro_ctx)
      "body_scan" := by
  obtain ⟨h1, h2⟩ := generate_introduction_never_fails failing_remote
    sample_intro_ctx (fun p k => ⟨"service unavailable", rfl⟩)
  exact ⟨h1, h2 rfl rfl⟩

/-- C9: for any request with `duration_minutes = 15` and no check-in data,
the prompt built by the introduction orchestrator embeds the default
literal `"unknown"` on the agitation line and the default literal
`"normal"` on the energy line. -/
theorem introduction_prompt_defaults (req : IntroductionRequest)
    (h15 : req.duration_minutes = 15) (hchk : req.checkin_data = none) :
    strContains (introduction_prompt (build_introduction_context req))
      "unknown" ∧
    strContains (introduction_prompt (build_introduction_context req))
      "normal" ∧
    strContains (introduction_prompt (build_introduction_context req))
      "- Current agitation level: unknown/5" ∧
    strContains (introduction_prompt (build_introduction_context req))
      "- Energy level: normal" := by
  have hprompt : introduction_prompt (build_introduction_context req) =
      INTRO_SEG1 ++ (user_profile_or_default req.user_profile ++
        (INTRO_SEG2 ++ (req.meditation_type ++ (INTRO_SEG3 ++
        (toString (15 : Int) ++ (INTRO_SEG4 ++ ("unknown" ++ (INTRO_SEG5 ++
        ("normal" ++ (INTRO_SEG6 ++ ("[]" ++ (INTRO_SEG7 ++ ("auto" ++
        INTRO_SEG8))))))))))))) := by
    simp [introduction_prompt, build_introduction_context, agitation_display,
      energy_display, emotions_display, preference_display, hchk, h15,
      String.append_assoc]
  refine ⟨?_, ?_, ?_, ?_⟩ <;> rw [hprompt] <;>
    apply strContains_append_left <;> apply strContains_append_left <;>
    apply strContains_append_left <;> apply strContains_append_left <;>
    apply strContains_append_left <;> apply strContains_append_left
  · exact ⟨" minutes\n- Current agitation level: ",
      "/5\n- Energy level: normal\n- Present emotions: []\n- Preference: auto"
        ++ INTRO_SEG8, by rfl⟩
  · exact ⟨" minutes\n- Current agitation level: unknown/5\n- Energy level: ",
      "\n- Present emotions: []\n- Preference: auto" ++ INTRO_SEG8, by rfl⟩
  · exact ⟨" minutes\n",
      "\n- Energy level: normal\n- Present emotions: []\n- Preference: auto"
        ++ INTRO_SEG8, by rfl⟩
  · exact ⟨" minutes\n- Current agitation level: unknown/5\n",
      "\n- Present emotions: []\n- Preference: auto" ++ INTRO_SEG8, by rfl⟩

/-- A duration-15 request with no check-in data, for witnesses. -/
def sample_request : IntroductionRequest :=
  { meditation_type := "breath_focus", duration_minutes := 15,
    user_profile := none, checkin_data := none }

theorem introduction_prompt_defaults_witness :
    strContains (introduction_prompt (build_introduction_context
      sample_request)) "unknown" ∧
    strContains (introduction_prompt (build_introduction_context
      sample_request)) "normal" ∧
    strContains (introduction_prompt (build_introduction_context
      sample_request)) "- Current agitation level: unknown/5" ∧
    strContains (introduction_prompt (build_introduction_context
      sample_request)) "- Energy level: normal" :=
  introduction_prompt_defaults sample_request rfl rfl

/-- One row of the phrase table loaded from
`phrase_list_with_audio.csv` (`src/session_planner.py` lines 14-21): the
first CSV column is the integer phrase id, the remaining columns are kept
opaque. -/
structure PhraseRow where
  id : Int
  rest : List String
deriving DecidableEq, Repr

/-- The method `SessionPlanner.get_available_phrases`
(`src/session_planner.py` lines 23-25): `self.phrases_df.iloc[:, 0].tolist()` — the first column of
the loaded table in row order; the `meditation_type` parameter (source
default `"breath_focus"`) is accepted but never read. -/
def get_available_phrases (phrases_df : List PhraseRow)
    (meditation_type : String) : List Int :=
  phrases_df.map PhraseRow.id

/-- The `user_context` dict of `create_session_plan`
(`src/session_planner.py` lines 37-41): each key is optional. -/
structure UserContext where
  experience_level : Option String
  mood : Option String
  time_of_day : Option String
  previous_sessions : Option String
deriving DecidableEq, Repr

/-- Lookup with default on the optional user-context dict, as in
context.get(key, default) after the expression user_context or the empty
dict (`src/session_planner.py` lines 37-41). -/
def ctx_get (o : Option UserContext) (f : UserContext → Option String)
    (dflt : String) : String :=
  match o with
  | none => dflt
  | some c => (f c).getD dflt

/-- Fixed segments of the f-string template of
`SessionPlanner._build_ai_prompt` (`src/session_planner.py` lines 74-96),
split at the interpolation holes.  Note the trailing space after
"Basic breath awareness" present in the source. -/
def PLAN_SEG1 : String := "\nCreate a "

def PLAN_SEG2 : String := "-minute "

def PLAN_SEG3 : String := " session for a "

def PLAN_SEG4 : String := " practitioner who is feeling "

def PLAN_SEG5 : String := " in the "

def PLAN_SEG6 : String := ".\n\nAvailable phrases: "

def PLAN_SEG7 : String :=
  "\n\nCategories:\n- 1-5: Opening (settling, initial breath awareness)\n- 6-13: Basic breath awareness \n- 14-19: Deep breathing\n- 20-25: Calming body/mind\n- 26-31: Smiling/releasing\n- 32-37: Present moment awareness\n\nSelect 6-10 phrases and return ONLY this format:\nsequence,phrase_id,minute\n\nExample:\n1,1,0\n2,6,2\n3,14,5\n\nJust the CSV data, nothing else.\n"

/-- The method `SessionPlanner._build_ai_prompt`
(`src/session_planner.py` lines 64-98).  The `previous_pattern` parameter is accepted but, as in the
source template, never interpolated. -/
def build_ai_prompt (meditation_type : String) (duration_minutes : Int)
    (user_experience user_mood time_of_day previous_pattern : String)
    (available_phrase_ids : List Int) : String :=
  PLAN_SEG1 ++ toString duration_minutes ++ PLAN_SEG2 ++ meditation_type ++
  PLAN_SEG3 ++ user_experience ++ PLAN_SEG4 ++ user_mood ++ PLAN_SEG5 ++
  time_of_day ++ PLAN_SEG6 ++ pyReprIntList available_phrase_ids ++ PLAN_SEG7

/-- The method `SessionPlanner._create_default_csv`
(`src/session_planner.py` lines 100-107). -/
def create_default_csv (duration_minutes : Int) : String :=
  if duration_minutes ≤ 10 then "1,1,0\n2,6,2\n3,14,5\n4,32,8"
  else if duration_minutes ≤ 20 then
    "1,1,0\n2,6,2\n3,14,5\n4,20,8\n5,26,12\n6,32,15"
  else "1,1,0\n2,6,3\n3,14,6\n4,20,10\n5,26,15\n6,32,20\n7,35,25"

/-- The method `SessionPlanner.create_session_plan`
(`src/session_planner.py` lines 27-62): gather the available phrase ids, build the prompt from the
user-context defaults and the first 37 ids, call
`self.google_ai.generate_content(prompt)` (retry-wrapped) and return the
stripped response; any exception out of the `try` block — including the
`AttributeError` from `.strip()` on the `None` a fell-through wrapper
would return — yields `_create_default_csv(duration_minutes)`. -/
def create_session_plan (remote : String → Nat → Except String String)
    (phrases_df : List PhraseRow) (meditation_type : String)
    (duration_minutes : Int) (user_context : Option UserContext) : String :=
  let available_phrase_ids := get_available_phrases phrases_df meditation_type
  let prompt := build_ai_prompt meditation_type duration_minutes
    (ctx_get user_context UserContext.experience_level "beginner")
    (ctx_get user_context UserContext.mood "neutral")
    (ctx_get user_context UserContext.time_of_day "any")
    (ctx_get user_context UserContext.previous_sessions "none")
    (available_phrase_ids.take 37)
  match (generate_content (remote prompt)).outcome with
  | RetryOutcome.ok csv_response => pyStrip csv_response
  | RetryOutcome.raised _ => create_default_csv duration_minutes
  | RetryOutcome.fellThrough => create_default_csv duration_minutes

/-- C5: with remote generation permanently failing,
`create_session_plan` returns `_create_default_csv(duration_minutes)`,
which is one of three fixed CSV strings selected only by duration:
the 4-row fixture for durations up to 10 (so duration 8 yields it), the
6-row fixture for durations in (10, 20], and the 7-row fixture above 20 —
byte-exact. -/
theorem create_session_plan_fallback
    (remote : String → Nat → Except String String)
    (phrases_df : List PhraseRow) (mt : String) (d : Int)
    (uc : Option UserContext)
    (hfail : ∀ prompt k, ∃ e, remote prompt k = Except.error e) :
    create_session_plan remote phrases_df mt d uc = create_default_csv d ∧
    (d ≤ 10 → create_default_csv d = "1,1,0\n2,6,2\n3,14,5\n4,32,8") ∧
    (10 < d → d ≤ 20 →
      create_default_csv d = "1,1,0\n2,6,2\n3,14,5\n4,20,8\n5,26,12\n6,32,15") ∧
    (20 < d →
      create_default_csv d =
        "1,1,0\n2,6,3\n3,14,6\n4,20,10\n5,26,15\n6,32,20\n7,35,25") := by
  refine ⟨?_, ?_, ?_, ?_⟩
  · obtain ⟨e, he⟩ := generate_content_fails_of_always_error
      (remote (build_ai_prompt mt d
        (ctx_get uc UserContext.experience_level "beginner")
        (ctx_get uc UserContext.mood "neutral")
        (ctx_get uc UserContext.time_of_day "any")
        (ctx_get uc UserContext.previous_sessions "none")
        ((get_available_phrases phrases_df mt).take 37)))
      (hfail _)
    simp only [create_session_plan]
    rw [he]
  · intro h
    simp [create_default_csv, h]
  · intro h1 h2
    rw [create_default_csv, if_neg (by omega), if_pos h2]
  · intro h
    rw [create_default_csv, if_neg (by omega), if_neg (by omega)]

/-- A two-row phrase table, for witnesses. -/
def sample_phrases : List PhraseRow := [⟨1, ["phrase one"]⟩, ⟨2, ["phrase two"]⟩]

theorem create_session_plan_fallback_witness :
    create_session_plan failing_remote sample_phrases "breath_focus" 8 none =
      "1,1,0\n2,6,2\n3,14,5\n4,32,8" ∧
    create_session_plan failing_remote sample_phrases "breath_focus" 15 none =
      "1,1,0\n2,6,2\n3,14,5\n4,20,8\n5,26,12\n6,32,15" ∧
    create_session_plan failing_remote sample_phrases "breath_focus" 25 none =
      "1,1,0\n2,6,3\n3,14,6\n4,20,10\n5,26,15\n6,32,20\n7,35,25" := by
  have hf : ∀ prompt k, ∃ e, failing_remote prompt k = Except.error e :=
    fun p k => ⟨"service unavailable", rfl⟩
  obtain ⟨ha1, ha2, _, _⟩ := create_session_plan_fallback failing_remote
    sample_phrases "breath_focus" 8 none hf
  obtain ⟨hb1, _, hb2, _⟩ := create_session_plan_fallback failing_remote
    sample_phrases "breath_focus" 15 none hf
  obtain ⟨hc1, _, _, hc2⟩ := create_session_plan_fallback failing_remote
    sample_phrases "breath_focus" 25 none hf
  exact ⟨ha1.trans (ha2 (by omega)),
    hb1.trans (hb2 (by omega) (by omega)),
    hc1.trans (hc2 (by omega))⟩

/-- C10: `get_available_phrases` never reads its `meditation_type`
argument: for every loaded phrase table and any two meditation-type
strings the result is the same list, namely the first column of the table
in row order. -/
theorem get_available_phrases_ignores_type (phrases_df : List PhraseRow)
    (t1 t2 : String) :
    get_available_phrases phrases_df t1 = get_available_phrases phrases_df t2 ∧
    get_available_phrases phrases_df t1 = phrases_df.map PhraseRow.id :=
  ⟨rfl, rfl⟩
